import Mathlib

/-!
Verification of the CRC-32 library (Keith-Cancel/CRC-32).

The repository ships the public header `src/headers/crc32.h`, which declares
`create_crc32_lut`, `destory_crc32_lut`, `calculate_crc32` and the constant
table aggregate `crc32_luts`.  The translation unit implementing these
declarations is not part of `src/`, so each operation below is modelled from
the specification text (sections 4.1, 4.2 and 4.3 of the design document),
which describes the algorithms in full.  Machine integers are modelled as
`Nat` with explicit 32-bit masking where overflow matters; the only
operations used (xor, shift right, and) never exceed 32 bits when their
inputs are 32-bit values.
-/

/-- The all-ones 32-bit mask, used for the bitwise complement. -/
def MASK32 : Nat := 0xFFFFFFFF

/-- Bitwise NOT of a 32-bit value, expressed as xor with the all-ones mask. -/
def not32 (x : Nat) : Nat := x ^^^ MASK32

/-- Modelled from the spec: one round of the bit-serial reflected CRC step
used by `create_crc32_lut` (section 4.1): if the low bit of the register is
set, shift right by one and xor with the polynomial, otherwise shift right
by one. -/
def crc32_bit_step (poly r : Nat) : Nat :=
  if r % 2 = 1 then (r >>> 1) ^^^ poly else r >>> 1

/-- Modelled from the spec: the table entry for byte value `b` is obtained
by starting the register at `b` and applying `crc32_bit_step` eight times
(section 4.1). -/
def crc32_table_entry (poly b : Nat) : Nat :=
  (crc32_bit_step poly)^[8] b

/-- Modelled from the spec: `create_crc32_lut` builds the 256-entry lookup
table for a polynomial, entry `b` being `crc32_table_entry poly b`
(section 4.1; the implementing translation unit is absent from `src/`). -/
def create_crc32_lut (poly : Nat) : List Nat :=
  (List.range 256).map (crc32_table_entry poly)

/-- Modelled from the spec: the per-byte update of `calculate_crc32`
(section 4.2): shift the running register right by 8 bits and xor with the
table entry indexed by the low byte of the register xored with the input
byte. -/
def crc32_update (lut : List Nat) (reg byte : Nat) : Nat :=
  (reg >>> 8) ^^^ lut.getD ((reg &&& 0xFF) ^^^ byte) 0

/-- Modelled from the spec: the byte-consuming loop of `calculate_crc32`,
written as direct recursion over the buffer, mirroring the loop over the
data bytes in the implementation described by section 4.2. -/
def crc32_loop (lut : List Nat) (reg : Nat) : List Nat → Nat
  | [] => reg
  | b :: rest => crc32_loop lut (crc32_update lut reg b) rest

/-- Modelled from the spec: `calculate_crc32` (section 4.2): complement the
previous checksum to seed the register, consume every byte of the buffer
with `crc32_update`, and complement the final register.  The buffer is a
`List Nat` of byte values; its length is implicit in the list. -/
def calculate_crc32 (lut : List Nat) (data : List Nat) (previous : Nat) : Nat :=
  not32 (crc32_loop lut (not32 previous) data)

/-- The reference computation stated by the specification in section 4.2,
written independently as a left fold: register starts at the complement of
`previous`, each byte applies `crc32_update`, and the result is the
complement of the final register. -/
def crc32_reference (lut : List Nat) (data : List Nat) (previous : Nat) : Nat :=
  not32 (data.foldl (crc32_update lut) (not32 previous))

/-- The IEEE 802.3 polynomial, per the header documentation of
`crc32_luts.IEEE`. -/
def POLY_IEEE : Nat := 0xedb88320

/-- The Castagnoli polynomial, per the header documentation of
`crc32_luts.Castagnoli`. -/
def POLY_CASTAGNOLI : Nat := 0x82f63b78

/-- The byte values of the ASCII string "123456789". -/
def ascii123456789 : List Nat := [49, 50, 51, 52, 53, 54, 55, 56, 57]

/-- Modelled from the spec: a handle to a lookup table as passed to
`destory_crc32_lut` — a null handle, one of the four process-lifetime
constant tables of `crc32_luts` (IEEE, Castagnoli, Koopman, Koopman_hd18),
or a dynamically allocated table identified by its allocation id
(sections 3 and 4.1; the implementing translation unit is absent from
`src/`). -/
inductive LutHandle where
  | null : LutHandle
  | constTable (i : Fin 4) : LutHandle
  | dyn (id : Nat) : LutHandle
deriving DecidableEq

/-- Modelled from the spec: the allocator state tracking dynamically
allocated lookup tables — a counter of allocation ids handed out so far and
the list of ids still live (owned by callers and not yet released). -/
structure LutHeap where
  nextId : Nat
  live : List Nat
deriving DecidableEq

/-- A well-formed heap hands out fresh ids: every live id is below the
counter. -/
def LutHeap.WF (s : LutHeap) : Prop := ∀ id ∈ s.live, id < s.nextId

/-- Modelled from the spec: a successful `create_crc32_lut` call at the
allocator level — it returns a fresh dynamic handle owned by the caller and
records it as live (section 4.1). -/
def create_lut_sys (s : LutHeap) : LutHandle × LutHeap :=
  (LutHandle.dyn s.nextId, ⟨s.nextId + 1, s.nextId :: s.live⟩)

/-- Modelled from the spec: `destory_crc32_lut` (section 4.1) — returns
false and leaves the state untouched on a null handle or a table not owned
by the caller (a constant table, or a dynamic handle that is not live);
frees a live dynamic table and returns true. -/
def destory_crc32_lut (s : LutHeap) : LutHandle → Bool × LutHeap
  | LutHandle.null => (false, s)
  | LutHandle.constTable _ => (false, s)
  | LutHandle.dyn id =>
      if id ∈ s.live then (true, ⟨s.nextId, s.live.erase id⟩) else (false, s)

/-- Modelled from the spec: `create_crc32_lut` with its only failure mode —
the table is produced for every 32-bit polynomial, and the call fails
exactly when the allocation of the backing memory fails (sections 4.1
and 7). -/
def create_crc32_lut_checked (allocOk : Bool) (poly : Nat) :
    Option (List Nat) :=
  if allocOk then some (create_crc32_lut poly) else none

/-- Modelled from the spec: the memory read by a `calculate_crc32` call —
the lookup table and the input buffer (section 4.2). -/
structure CrcMem where
  table : List Nat
  buffer : List Nat
deriving DecidableEq

/-- Modelled from the spec: `calculate_crc32` as a state transformer over
the memory holding its table and buffer — section 4.2 specifies no side
effect beyond reading the two, so the call returns the checksum of the
buffer and leaves the memory as it found it. -/
def calculate_crc32_st (m : CrcMem) (previous : Nat) : Nat × CrcMem :=
  (calculate_crc32 m.table m.buffer previous, m)

/- ### Basic lemmas -/

theorem not32_not32 (x : Nat) : not32 (not32 x) = x := by
  unfold not32
  rw [Nat.xor_assoc, Nat.xor_self, Nat.xor_zero]

theorem crc32_loop_eq_foldl (lut : List Nat) (data : List Nat) (reg : Nat) :
    crc32_loop lut reg data = data.foldl (crc32_update lut) reg := by
  induction data generalizing reg with
  | nil => rfl
  | cons b rest ih => simp [crc32_loop, ih]

theorem crc32_loop_append (lut : List Nat) (A B : List Nat) (reg : Nat) :
    crc32_loop lut reg (A ++ B) = crc32_loop lut (crc32_loop lut reg A) B := by
  simp [crc32_loop_eq_foldl, List.foldl_append]

/- ### Claims -/

/-- C1: for every lookup table and every `previous`, `calculate_crc32` on a
length-0 buffer returns `previous` unchanged. -/
theorem calculate_crc32_nil (lut : List Nat) (previous : Nat) :
    calculate_crc32 lut [] previous = previous := by
  unfold calculate_crc32 crc32_loop
  exact not32_not32 previous

/-- C2: chaining — for every table and buffers `A`, `B`, the checksum of
`B` seeded with the checksum of `A` (seeded with 0) equals the checksum of
the concatenation `A ++ B` seeded with 0. -/
theorem calculate_crc32_chain (lut : List Nat) (A B : List Nat) :
    calculate_crc32 lut B (calculate_crc32 lut A 0) =
      calculate_crc32 lut (A ++ B) 0 := by
  unfold calculate_crc32
  rw [not32_not32, crc32_loop_append]

/-- C3: for every polynomial and every byte value `b < 256`, entry `b` of
the table built by `create_crc32_lut` equals the result of starting a
register at `b` and iterating eight times the step that shifts right by one
and xors with the polynomial exactly when the low bit is set. -/
theorem create_crc32_lut_entry (poly b : Nat) (hb : b < 256) :
    (create_crc32_lut poly).getD b 0 = (crc32_bit_step poly)^[8] b := by
  unfold create_crc32_lut
  rw [List.getD_eq_getElem?_getD, List.getElem?_map, List.getElem?_range hb]
  rfl

/-- C3 witness: the theorem instantiated at the IEEE polynomial and byte
value 1. -/
theorem create_crc32_lut_entry_witness :
    (create_crc32_lut POLY_IEEE).getD 1 0 = (crc32_bit_step POLY_IEEE)^[8] 1 :=
  create_crc32_lut_entry POLY_IEEE 1 (by decide)

/-- C4: for every table, nonempty buffer and seed, `calculate_crc32`
coincides with the reference computation of the specification: complement
the seed, fold `crc32_update` over the bytes in order, complement the
result. -/
theorem calculate_crc32_eq_reference (lut : List Nat) (data : List Nat)
    (previous : Nat) (hn : 0 < data.length) :
    calculate_crc32 lut data previous = crc32_reference lut data previous := by
  unfold calculate_crc32 crc32_reference
  rw [crc32_loop_eq_foldl]

/-- C4 witness: the theorem instantiated at the IEEE table, the one-byte
buffer `[0]` and seed 0. -/
theorem calculate_crc32_eq_reference_witness :
    calculate_crc32 (create_crc32_lut POLY_IEEE) [0] 0 =
      crc32_reference (create_crc32_lut POLY_IEEE) [0] 0 :=
  calculate_crc32_eq_reference (create_crc32_lut POLY_IEEE) [0] 0 (by decide)

/-- C5: known-answer tests for the IEEE 802.3 table with seed 0: the empty
buffer gives 0, the ASCII bytes of "123456789" give 0xCBF43926, and the
single zero byte gives 0xD202EF8D. -/
theorem calculate_crc32_ieee_kat :
    calculate_crc32 (create_crc32_lut POLY_IEEE) [] 0 = 0x00000000 ∧
    calculate_crc32 (create_crc32_lut POLY_IEEE) ascii123456789 0 = 0xCBF43926 ∧
    calculate_crc32 (create_crc32_lut POLY_IEEE) [0] 0 = 0xD202EF8D := by
  refine ⟨?_, ?_, ?_⟩ <;> decide

/-- C6: known-answer test for the Castagnoli table: the ASCII bytes of
"123456789" with seed 0 give 0xE3069283. -/
theorem calculate_crc32_castagnoli_kat :
    calculate_crc32 (create_crc32_lut POLY_CASTAGNOLI) ascii123456789 0 =
      0xE3069283 := by
  decide

/-- C7: table construction is deterministic — for every polynomial, two
invocations of `create_crc32_lut` yield identical tables, and the table has
exactly 256 entries. -/
theorem create_crc32_lut_deterministic (poly : Nat) :
    create_crc32_lut poly = create_crc32_lut poly ∧
      (create_crc32_lut poly).length = 256 := by
  refine ⟨rfl, ?_⟩
  unfold create_crc32_lut
  rw [List.length_map, List.length_range]

/-- C8: in any well-formed allocator state, `destory_crc32_lut` returns
false on a null handle; it returns false on each constant table and leaves
the state (hence the constant table) untouched; and a table freshly
returned by the builder is released successfully exactly once — the first
release returns true and a second release of the same handle returns
false. -/
theorem destory_crc32_lut_spec (s : LutHeap) (hwf : s.WF) (i : Fin 4) :
    (destory_crc32_lut s LutHandle.null).1 = false ∧
    (destory_crc32_lut s (LutHandle.constTable i)).1 = false ∧
    (destory_crc32_lut s (LutHandle.constTable i)).2 = s ∧
    (destory_crc32_lut (create_lut_sys s).2 (create_lut_sys s).1).1 = true ∧
    (destory_crc32_lut
      (destory_crc32_lut (create_lut_sys s).2 (create_lut_sys s).1).2
      (create_lut_sys s).1).1 = false := by
  have hnot : s.nextId ∉ s.live := fun h => absurd (hwf _ h) (lt_irrefl _)
  refine ⟨rfl, rfl, rfl, ?_, ?_⟩
  · simp [create_lut_sys, destory_crc32_lut]
  · simp [create_lut_sys, destory_crc32_lut, List.erase_cons_head, hnot]

/-- C8 witness: the theorem instantiated at the empty allocator state and
the first constant table. -/
theorem destory_crc32_lut_spec_witness :
    (destory_crc32_lut ⟨0, []⟩ LutHandle.null).1 = false ∧
    (destory_crc32_lut ⟨0, []⟩ (LutHandle.constTable 0)).1 = false ∧
    (destory_crc32_lut ⟨0, []⟩ (LutHandle.constTable 0)).2 = ⟨0, []⟩ ∧
    (destory_crc32_lut (create_lut_sys ⟨0, []⟩).2 (create_lut_sys ⟨0, []⟩).1).1
      = true ∧
    (destory_crc32_lut
      (destory_crc32_lut (create_lut_sys ⟨0, []⟩).2
        (create_lut_sys ⟨0, []⟩).1).2
      (create_lut_sys ⟨0, []⟩).1).1 = false :=
  destory_crc32_lut_spec ⟨0, []⟩ (by intro id h; simp at h) 0

/-- C9: `create_crc32_lut` accepts every polynomial value without
validation — the checked builder returns none exactly when the allocation
fails, and under a successful allocation it returns the table for any
polynomial, including zero. -/
theorem create_crc32_lut_checked_spec (allocOk : Bool) (poly : Nat) :
    (create_crc32_lut_checked allocOk poly = none ↔ allocOk = false) ∧
    create_crc32_lut_checked true poly = some (create_crc32_lut poly) := by
  constructor
  · cases allocOk <;> simp [create_crc32_lut_checked]
  · rfl

/-- C10: `calculate_crc32` has no side effects — run as a state
transformer over the memory holding its table and buffer, it leaves both
exactly as they were and returns the pure checksum of the buffer. -/
theorem calculate_crc32_st_frame (m : CrcMem) (previous : Nat) :
    (calculate_crc32_st m previous).2.table = m.table ∧
    (calculate_crc32_st m previous).2.buffer = m.buffer ∧
    (calculate_crc32_st m previous).1 =
      calculate_crc32 m.table m.buffer previous :=
  ⟨rfl, rfl, rfl⟩
